import Mathlib

/-
Verification of the webp-screenshot core against its specification.

The Rust sources are shallowly embedded:
  * byte buffers are `List Nat` (each element a byte value),
  * machine integers are `Nat`, with wrap-around written explicitly
    (`% 2 ^ 64` for usize/u64, `% 2 ^ 32` for u32, `% 256` for u8)
    at the operations where Rust release builds wrap,
  * stateful components (memory pool, zero-copy statistics, pipeline)
    are explicit state-passing functions over record types,
  * fallible operations return `Except`.
-/

/- ===================================================================
   Pixel-format conversion (src/encoder/simd.rs, SimdConverter)
   =================================================================== -/

/-- Scalar BGRA to RGBA conversion (SimdConverter::convert_bgra_to_rgba_scalar):
`chunks_exact_mut(4)` with `chunk.swap(0, 2)` processes each complete 4-byte
group, swapping bytes 0 and 2; the trailing `len % 4` bytes are untouched.
The AVX2/SSSE3/NEON paths dispatched by `convert_bgra_to_rgba` apply the same
byte permutation (shuffle mask 2,1,0,3 per group) on 16/32-byte blocks with
this scalar loop as the tail, so this function is the common semantics. -/
def convert_bgra_to_rgba_scalar : List Nat → List Nat
  | b :: g :: r :: a :: rest => r :: g :: b :: a :: convert_bgra_to_rgba_scalar rest
  | l => l

/-- Scalar RGBA to RGB conversion (SimdConverter::convert_rgba_to_rgb_scalar):
iterates `src.chunks_exact(4)`, writing the first three bytes of chunk `k`
to `dst[3k] dst[3k+1] dst[3k+2]`. One chunk's three writes. `List.set` is a
no-op out of range, where the Rust indexing would panic; the claims only
concern well-sized destinations, where every write is in range. -/
def rgba_chunk_write (src : List Nat) (d : List Nat) (k : Nat) : List Nat :=
  ((d.set (3 * k) (src.getD (4 * k) 0)).set (3 * k + 1) (src.getD (4 * k + 1) 0)).set
    (3 * k + 2) (src.getD (4 * k + 2) 0)

/-- Scalar RGBA to RGB conversion: all `src.length / 4` complete chunks are
written in order. The AVX2 body performs the identical scalar writes and the
SSE4.1 body calls the scalar function, so this is the common semantics of
SimdConverter::convert_rgba_to_rgb. -/
def convert_rgba_to_rgb_scalar (src dst : List Nat) : List Nat :=
  (List.range (src.length / 4)).foldl (rgba_chunk_write src) dst

/- Helper lemmas about List.set / List.getD. -/

theorem getD_set_self : ∀ (l : List Nat) (i v d : Nat), i < l.length →
    (l.set i v).getD i d = v
  | [], i, _, _, h => absurd h (by simp)
  | _ :: _, 0, _, _, _ => rfl
  | _ :: xs, i + 1, v, d, h =>
    getD_set_self xs i v d (by simpa using Nat.lt_of_succ_lt_succ h)

theorem getD_set_other : ∀ (l : List Nat) (i j v d : Nat), i ≠ j →
    (l.set i v).getD j d = l.getD j d
  | [], _, _, _, _, _ => rfl
  | _ :: _, 0, 0, _, _, h => absurd rfl h
  | _ :: _, 0, _ + 1, _, _, _ => rfl
  | _ :: _, _ + 1, 0, _, _, _ => rfl
  | _ :: xs, i + 1, j + 1, v, d, h =>
    getD_set_other xs i j v d (fun e => h (by rw [e]))

theorem length_rgba_chunk_write (src d : List Nat) (k : Nat) :
    (rgba_chunk_write src d k).length = d.length := by
  simp [rgba_chunk_write]

theorem getD_rgba_chunk_write_lt (src d : List Nat) (k j : Nat) (h : j < 3 * k) :
    (rgba_chunk_write src d k).getD j 0 = d.getD j 0 := by
  unfold rgba_chunk_write
  rw [getD_set_other _ _ _ _ _ (by omega), getD_set_other _ _ _ _ _ (by omega),
    getD_set_other _ _ _ _ _ (by omega)]

theorem getD_rgba_chunk_write_self (src d : List Nat) (k j : Nat) (hj : j < 3)
    (hd : 3 * k + 2 < d.length) :
    (rgba_chunk_write src d k).getD (3 * k + j) 0 = src.getD (4 * k + j) 0 := by
  unfold rgba_chunk_write
  interval_cases j
  · rw [getD_set_other _ _ _ _ _ (by omega), getD_set_other _ _ _ _ _ (by omega)]
    simpa using getD_set_self d (3 * k) (src.getD (4 * k) 0) 0 (by omega)
  · rw [getD_set_other _ _ _ _ _ (by omega)]
    exact getD_set_self _ (3 * k + 1) _ 0 (by simp; omega)
  · exact getD_set_self _ (3 * k + 2) _ 0 (by simp; omega)

theorem length_rgba_fold (src : List Nat) : ∀ (ks : List Nat) (d : List Nat),
    (ks.foldl (rgba_chunk_write src) d).length = d.length
  | [], _ => rfl
  | k :: ks, d => by
    rw [List.foldl_cons, length_rgba_fold src ks, length_rgba_chunk_write]

theorem rgba_fold_spec (src dst : List Nat) :
    ∀ n, 3 * (src.length / 4) ≤ dst.length → n ≤ src.length / 4 →
    ∀ i j, i < n → j < 3 →
    (((List.range n).foldl (rgba_chunk_write src) dst)).getD (3 * i + j) 0 =
      src.getD (4 * i + j) 0 := by
  intro n
  induction n with
  | zero => intro _ _ i j hi _; omega
  | succ m ih =>
    intro hdst hn i j hi hj
    rw [List.range_succ, List.foldl_append, List.foldl_cons, List.foldl_nil]
    rcases Nat.lt_succ_iff_lt_or_eq.mp hi with hlt | heq
    · rw [getD_rgba_chunk_write_lt _ _ _ _ (by omega)]
      exact ih hdst (by omega) i j hlt hj
    · subst heq
      exact getD_rgba_chunk_write_self src _ i j hj
        (by rw [length_rgba_fold]; omega)

/-- C7: for src with length a multiple of 4 and dst of length 3*src.len()/4,
convert_rgba_to_rgb writes dst[3i+j] = src[4i+j] for every pixel i and
channel j < 3 (order preserved, alpha dropped), and the output has exactly
3/4 the input length. -/
theorem convert_rgba_to_rgb_drops_alpha (src dst : List Nat)
    (h4 : src.length % 4 = 0) (hd : dst.length = 3 * src.length / 4) :
    (convert_rgba_to_rgb_scalar src dst).length = 3 * src.length / 4 ∧
    ∀ i j, i < src.length / 4 → j < 3 →
      (convert_rgba_to_rgb_scalar src dst).getD (3 * i + j) 0 =
        src.getD (4 * i + j) 0 := by
  have hd3 : dst.length = 3 * (src.length / 4) := by omega
  constructor
  · rw [convert_rgba_to_rgb_scalar, length_rgba_fold, hd]
  · intro i j hi hj
    exact rgba_fold_spec src dst (src.length / 4) (by omega) (le_refl _) i j hi hj

theorem convert_rgba_to_rgb_drops_alpha_witness :
    ([255, 128, 64, 255, 128, 64, 32, 255] : List Nat).length % 4 = 0 ∧
    ([0, 0, 0, 0, 0, 0] : List Nat).length =
      3 * ([255, 128, 64, 255, 128, 64, 32, 255] : List Nat).length / 4 ∧
    ((convert_rgba_to_rgb_scalar [255, 128, 64, 255, 128, 64, 32, 255]
        [0, 0, 0, 0, 0, 0]).length =
      3 * ([255, 128, 64, 255, 128, 64, 32, 255] : List Nat).length / 4 ∧
    ∀ i j, i < ([255, 128, 64, 255, 128, 64, 32, 255] : List Nat).length / 4 →
      j < 3 →
      (convert_rgba_to_rgb_scalar [255, 128, 64, 255, 128, 64, 32, 255]
          [0, 0, 0, 0, 0, 0]).getD (3 * i + j) 0 =
        ([255, 128, 64, 255, 128, 64, 32, 255] : List Nat).getD (4 * i + j) 0) :=
  ⟨by decide, by decide,
    convert_rgba_to_rgb_drops_alpha _ _ (by decide) (by decide)⟩

/- Helper lemmas about the BGRA swap. -/

theorem bgra_length : ∀ l : List Nat,
    (convert_bgra_to_rgba_scalar l).length = l.length
  | [] => rfl
  | [_] => rfl
  | [_, _] => rfl
  | [_, _, _] => rfl
  | _ :: _ :: _ :: _ :: rest => by
    show _ = (_ :: _ :: _ :: _ :: rest).length
    simp [convert_bgra_to_rgba_scalar, bgra_length rest]

theorem getD_cons4 (x0 x1 x2 x3 : Nat) (t : List Nat) (n : Nat) :
    ((x0 :: x1 :: x2 :: x3 :: t).getD (n + 4) 0) = t.getD n 0 := by
  show (x0 :: x1 :: x2 :: x3 :: t).getD (n + 1 + 1 + 1 + 1) 0 = t.getD n 0
  simp [List.getD_cons_succ]

theorem bgra_group_swap : ∀ (l : List Nat) (i : Nat), 4 * i + 3 < l.length →
    (convert_bgra_to_rgba_scalar l).getD (4 * i) 0 = l.getD (4 * i + 2) 0 ∧
    (convert_bgra_to_rgba_scalar l).getD (4 * i + 1) 0 = l.getD (4 * i + 1) 0 ∧
    (convert_bgra_to_rgba_scalar l).getD (4 * i + 2) 0 = l.getD (4 * i) 0 ∧
    (convert_bgra_to_rgba_scalar l).getD (4 * i + 3) 0 = l.getD (4 * i + 3) 0
  | [], _, h => absurd h (by simp)
  | [_], _, h => by simp at h
  | [_, _], _, h => by simp at h; omega
  | [_, _, _], _, h => by simp at h
  | b :: g :: r :: a :: rest, 0, _ => by
    refine ⟨?_, ?_, ?_, ?_⟩ <;> rfl
  | b :: g :: r :: a :: rest, i + 1, h => by
    have hr : 4 * i + 3 < rest.length := by simp at h; omega
    have ih := bgra_group_swap rest i hr
    have hc : convert_bgra_to_rgba_scalar (b :: g :: r :: a :: rest) =
        r :: g :: b :: a :: convert_bgra_to_rgba_scalar rest := rfl
    rw [hc]
    refine ⟨?_, ?_, ?_, ?_⟩
    · calc (r :: g :: b :: a :: convert_bgra_to_rgba_scalar rest).getD
            (4 * (i + 1)) 0
          = (convert_bgra_to_rgba_scalar rest).getD (4 * i) 0 := by
            rw [(by omega : 4 * (i + 1) = 4 * i + 4), getD_cons4]
        _ = rest.getD (4 * i + 2) 0 := ih.1
        _ = (b :: g :: r :: a :: rest).getD (4 * (i + 1) + 2) 0 := by
            rw [(by omega : 4 * (i + 1) + 2 = 4 * i + 2 + 4), getD_cons4]
    · calc (r :: g :: b :: a :: convert_bgra_to_rgba_scalar rest).getD
            (4 * (i + 1) + 1) 0
          = (convert_bgra_to_rgba_scalar rest).getD (4 * i + 1) 0 := by
            rw [(by omega : 4 * (i + 1) + 1 = 4 * i + 1 + 4), getD_cons4]
        _ = rest.getD (4 * i + 1) 0 := ih.2.1
        _ = (b :: g :: r :: a :: rest).getD (4 * (i + 1) + 1) 0 := by
            rw [(by omega : 4 * (i + 1) + 1 = 4 * i + 1 + 4), getD_cons4]
    · calc (r :: g :: b :: a :: convert_bgra_to_rgba_scalar rest).getD
            (4 * (i + 1) + 2) 0
          = (convert_bgra_to_rgba_scalar rest).getD (4 * i + 2) 0 := by
            rw [(by omega : 4 * (i + 1) + 2 = 4 * i + 2 + 4), getD_cons4]
        _ = rest.getD (4 * i) 0 := ih.2.2.1
        _ = (b :: g :: r :: a :: rest).getD (4 * (i + 1)) 0 := by
            rw [(by omega : 4 * (i + 1) = 4 * i + 4), getD_cons4]
    · calc (r :: g :: b :: a :: convert_bgra_to_rgba_scalar rest).getD
            (4 * (i + 1) + 3) 0
          = (convert_bgra_to_rgba_scalar rest).getD (4 * i + 3) 0 := by
            rw [(by omega : 4 * (i + 1) + 3 = 4 * i + 3 + 4), getD_cons4]
        _ = rest.getD (4 * i + 3) 0 := ih.2.2.2
        _ = (b :: g :: r :: a :: rest).getD (4 * (i + 1) + 3) 0 := by
            rw [(by omega : 4 * (i + 1) + 3 = 4 * i + 3 + 4), getD_cons4]

theorem bgra_tail_untouched : ∀ (l : List Nat) (k : Nat),
    4 * (l.length / 4) ≤ k →
    (convert_bgra_to_rgba_scalar l).getD k 0 = l.getD k 0
  | [], _, _ => rfl
  | [_], _, _ => rfl
  | [_, _], _, _ => rfl
  | [_, _, _], _, _ => rfl
  | b :: g :: r :: a :: rest, k, h => by
    have hlen : (b :: g :: r :: a :: rest).length = rest.length + 4 := by simp
    have hdiv : (rest.length + 4) / 4 = rest.length / 4 + 1 :=
      Nat.add_div_right rest.length (by omega)
    have hk : 4 ≤ k := by rw [hlen, hdiv] at h; omega
    obtain ⟨m, rfl⟩ : ∃ m, k = m + 4 := ⟨k - 4, by omega⟩
    have hc : convert_bgra_to_rgba_scalar (b :: g :: r :: a :: rest) =
        r :: g :: b :: a :: convert_bgra_to_rgba_scalar rest := rfl
    rw [hc, getD_cons4, getD_cons4]
    exact bgra_tail_untouched rest m (by rw [hlen, hdiv] at h; omega)

theorem bgra_involutive : ∀ l : List Nat,
    convert_bgra_to_rgba_scalar (convert_bgra_to_rgba_scalar l) = l
  | [] => rfl
  | [_] => rfl
  | [_, _] => rfl
  | [_, _, _] => rfl
  | b :: g :: r :: a :: rest => by
    have hc : convert_bgra_to_rgba_scalar (b :: g :: r :: a :: rest) =
        r :: g :: b :: a :: convert_bgra_to_rgba_scalar rest := rfl
    have hc2 : convert_bgra_to_rgba_scalar
        (r :: g :: b :: a :: convert_bgra_to_rgba_scalar rest) =
        b :: g :: r :: a ::
          convert_bgra_to_rgba_scalar (convert_bgra_to_rgba_scalar rest) := rfl
    rw [hc, hc2, bgra_involutive rest]

/-- C8: convert_bgra_to_rgba swaps byte 0 and byte 2 of every complete 4-byte
group, leaves bytes 1 and 3 of each group and the trailing len mod 4 bytes
unchanged, and maps [10,20,30,40, 1,2,3,4] to [30,20,10,40, 3,2,1,4]. -/
theorem convert_bgra_to_rgba_swaps_groups :
    (∀ l : List Nat, (convert_bgra_to_rgba_scalar l).length = l.length) ∧
    (∀ (l : List Nat) (i : Nat), 4 * i + 3 < l.length →
      (convert_bgra_to_rgba_scalar l).getD (4 * i) 0 = l.getD (4 * i + 2) 0 ∧
      (convert_bgra_to_rgba_scalar l).getD (4 * i + 1) 0 = l.getD (4 * i + 1) 0 ∧
      (convert_bgra_to_rgba_scalar l).getD (4 * i + 2) 0 = l.getD (4 * i) 0 ∧
      (convert_bgra_to_rgba_scalar l).getD (4 * i + 3) 0 = l.getD (4 * i + 3) 0) ∧
    (∀ (l : List Nat) (k : Nat), 4 * (l.length / 4) ≤ k →
      (convert_bgra_to_rgba_scalar l).getD k 0 = l.getD k 0) ∧
    convert_bgra_to_rgba_scalar [10, 20, 30, 40, 1, 2, 3, 4] =
      [30, 20, 10, 40, 3, 2, 1, 4] :=
  ⟨bgra_length, bgra_group_swap, bgra_tail_untouched, by decide⟩

theorem convert_bgra_to_rgba_swaps_groups_witness :
    4 * 1 + 3 < ([10, 20, 30, 40, 1, 2, 3, 4] : List Nat).length ∧
    ((convert_bgra_to_rgba_scalar [10, 20, 30, 40, 1, 2, 3, 4]).getD (4 * 1) 0 =
        ([10, 20, 30, 40, 1, 2, 3, 4] : List Nat).getD (4 * 1 + 2) 0 ∧
      (convert_bgra_to_rgba_scalar [10, 20, 30, 40, 1, 2, 3, 4]).getD
          (4 * 1 + 1) 0 =
        ([10, 20, 30, 40, 1, 2, 3, 4] : List Nat).getD (4 * 1 + 1) 0 ∧
      (convert_bgra_to_rgba_scalar [10, 20, 30, 40, 1, 2, 3, 4]).getD
          (4 * 1 + 2) 0 =
        ([10, 20, 30, 40, 1, 2, 3, 4] : List Nat).getD (4 * 1) 0 ∧
      (convert_bgra_to_rgba_scalar [10, 20, 30, 40, 1, 2, 3, 4]).getD
          (4 * 1 + 3) 0 =
        ([10, 20, 30, 40, 1, 2, 3, 4] : List Nat).getD (4 * 1 + 3) 0) :=
  ⟨by decide, convert_bgra_to_rgba_swaps_groups.2.1 [10, 20, 30, 40, 1, 2, 3, 4]
    1 (by decide)⟩

/-- C9: for any buffer whose length is a multiple of 4, applying
convert_bgra_to_rgba twice restores the original buffer. -/
theorem convert_bgra_to_rgba_involution (l : List Nat) (_h : l.length % 4 = 0) :
    convert_bgra_to_rgba_scalar (convert_bgra_to_rgba_scalar l) = l :=
  bgra_involutive l

theorem convert_bgra_to_rgba_involution_witness :
    ([10, 20, 30, 40, 1, 2, 3, 4] : List Nat).length % 4 = 0 ∧
    convert_bgra_to_rgba_scalar
        (convert_bgra_to_rgba_scalar [10, 20, 30, 40, 1, 2, 3, 4]) =
      [10, 20, 30, 40, 1, 2, 3, 4] :=
  ⟨by decide, convert_bgra_to_rgba_involution _ (by decide)⟩

/- ===================================================================
   Memory pool (src/memory_pool.rs)
   =================================================================== -/

/-- Error type MemoryPoolError (src/error.rs). -/
inductive MemoryPoolError where
  | PoolFull (capacity : Nat)
  | InvalidBufferSize (size : Nat)
  | BufferNotFound
  | PoolPoisoned
deriving Repr, DecidableEq

/-- usize/u64 modulus. Counters are modelled as Nat; the one place the Rust
code can cross a word boundary in a reachable state is AtomicUsize::fetch_sub,
so that wrap-around is written explicitly via wsub64. -/
def usizeMod : Nat := 2 ^ 64

/-- Wrapping usize subtraction, as AtomicUsize::fetch_sub computes it
(for a < 2^64 this is two's-complement wrap-around). -/
def wsub64 (a b : Nat) : Nat := (a + (usizeMod - b % usizeMod)) % usizeMod

theorem wsub64_of_le (a b : Nat) (hb : b ≤ a) (ha : a < usizeMod) :
    wsub64 a b = a - b := by
  have hm : 0 < usizeMod := by unfold usizeMod; omega
  have hb' : b % usizeMod = b :=
    Nat.mod_eq_of_lt (Nat.lt_of_le_of_lt hb ha)
  unfold wsub64
  rw [hb', (by omega : a + (usizeMod - b) = (a - b) + usizeMod),
    Nat.add_mod_right, Nat.mod_eq_of_lt (by omega)]

/-- Pool-internal idle-buffer metadata (BufferEntry): the Vec's length, the
tracked logical size, last-used timestamp, use count. Instants are Nat
timestamps in the same unit as PoolConfig.buffer_timeout. -/
structure BufferEntry where
  buffer_len : Nat
  size : Nat
  last_used : Nat
  use_count : Nat
deriving Repr, DecidableEq

/-- BufferEntry::new(buffer, size) at time now. -/
def BufferEntry.new (buffer_len size now : Nat) : BufferEntry :=
  ⟨buffer_len, size, now, 0⟩

/-- BufferEntry::matches_size: self.size >= requested && self.size <= requested*2. -/
def BufferEntry.matches_size (e : BufferEntry) (requested_size : Nat) : Bool :=
  decide (requested_size ≤ e.size) && decide (e.size ≤ requested_size * 2)

/-- BufferEntry::is_expired: last_used.elapsed() > timeout. -/
def BufferEntry.is_expired (e : BufferEntry) (timeout now : Nat) : Bool :=
  decide (timeout < now - e.last_used)

/-- PoolConfig (timeout and timestamps in milliseconds). -/
structure PoolConfig where
  max_buffers : Nat
  max_memory : Nat
  buffer_timeout : Nat
  preallocate : Bool
  default_buffer_size : Nat
deriving Repr, DecidableEq

/-- PoolConfig::default(): 10 buffers, 500 MB, 60 s timeout. -/
def PoolConfig.default : PoolConfig :=
  ⟨10, 500 * 1024 * 1024, 60000, false, 1920 * 1080 * 4⟩

/-- The pool's mutable state: idle list (VecDeque front to back) plus the
atomic counters of PoolStatsAtomic. -/
structure PoolState where
  buffers : List BufferEntry
  total_buffers_created : Nat
  memory_reuse_count : Nat
  peak_memory_usage : Nat
  current_memory_usage : Nat
  buffer_hits : Nat
  buffer_misses : Nat
deriving Repr, DecidableEq

/-- Freshly constructed pool (MemoryPool::with_config, preallocate = false). -/
def PoolState.initial : PoolState := ⟨[], 0, 0, 0, 0, 0, 0⟩

/-- A buffer on loan from the pool (PooledBuffer): Vec length, tracked size,
and whether the pool back-reference is present. -/
structure PooledBuffer where
  data_len : Nat
  size : Nat
  pooled : Bool
deriving Repr, DecidableEq

/-- MemoryPool::cleanup_expired_buffers: retain entries that are not expired. -/
def cleanup_expired_buffers (cfg : PoolConfig) (now : Nat) (st : PoolState) :
    PoolState :=
  { st with buffers := st.buffers.filter (fun e => !(e.is_expired cfg.buffer_timeout now)) }

/-- MemoryPool::find_suitable_buffer: iter().position of the first entry
matching the requested size (insertion order). -/
def find_suitable_buffer : List BufferEntry → Nat → Option Nat
  | [], _ => none
  | e :: es, size =>
    if e.matches_size size then some 0
    else (find_suitable_buffer es size).map (fun i => i + 1)

/-- MemoryPool::allocate_new_buffer: over the cap, hand out an untracked
buffer (no pool back-reference, no accounting); otherwise track it, bump
total_buffers_created and current_memory_usage, and update the peak via the
compare-and-swap loop (sequentially: peak := max peak current). -/
def allocate_new_buffer (cfg : PoolConfig) (st : PoolState) (size : Nat) :
    PooledBuffer × PoolState :=
  if cfg.max_memory < st.current_memory_usage + size then
    (⟨size, size, false⟩, st)
  else
    (⟨size, size, true⟩,
      { st with
        total_buffers_created := st.total_buffers_created + 1,
        current_memory_usage := st.current_memory_usage + size,
        peak_memory_usage :=
          max st.peak_memory_usage (st.current_memory_usage + size) })

/-- MemoryPool::acquire. The `.remove(index).unwrap()` cannot fail because
the index comes from find_suitable_buffer; the unreachable unwrap is
modelled as a BufferNotFound error (proved unreachable below). -/
def acquire (cfg : PoolConfig) (now : Nat) (st : PoolState) (size : Nat) :
    Except MemoryPoolError (PooledBuffer × PoolState) :=
  if size = 0 then .error (.InvalidBufferSize size)
  else
    let st1 := cleanup_expired_buffers cfg now st
    match find_suitable_buffer st1.buffers size with
    | some index =>
      match st1.buffers.get? index with
      | none => .error .BufferNotFound
      | some entry0 =>
        let entry1 : BufferEntry :=
          { entry0 with last_used := now, use_count := entry0.use_count + 1 }
        let cur1 := st1.current_memory_usage + entry1.size
        let resized :=
          if entry1.buffer_len < size then
            ({ entry1 with buffer_len := size, size := size },
              cur1 + (size - entry1.size))
          else (entry1, cur1)
        .ok (⟨resized.1.buffer_len, size, true⟩,
          { st1 with
            buffers := st1.buffers.eraseIdx index,
            current_memory_usage := resized.2,
            buffer_hits := st1.buffer_hits + 1,
            memory_reuse_count := st1.memory_reuse_count + 1 })
    | none =>
      let st2 := { st1 with buffer_misses := st1.buffer_misses + 1 }
      .ok (allocate_new_buffer cfg st2 size)

/-- MemoryPool::release_internal: decrement current_memory_usage by the
buffer's tracked size, then either drop the buffer (idle list full) or push
it onto the back of the idle list with a fresh timestamp. -/
def release_internal (cfg : PoolConfig) (now : Nat) (st : PoolState)
    (buffer_len size : Nat) : PoolState :=
  let st1 := { st with
    current_memory_usage := wsub64 st.current_memory_usage size }
  if cfg.max_buffers ≤ st1.buffers.length then st1
  else { st1 with buffers := st1.buffers ++ [BufferEntry.new buffer_len size now] }

/-- Drop for PooledBuffer: buffers with a pool back-reference return to the
pool via release_internal; detached/unpooled buffers change nothing. -/
def PooledBuffer.drop (cfg : PoolConfig) (now : Nat) (st : PoolState)
    (b : PooledBuffer) : PoolState :=
  if b.pooled then release_internal cfg now st b.data_len b.size else st

/-- MemoryPool::clear: drop all idle buffers, touching no counter. -/
def PoolState.clear (st : PoolState) : PoolState := { st with buffers := [] }

/-- Extract the ok result of an acquire, keeping the state on the (never
taken in the scenarios below) error branch; used to chain concrete runs. -/
def acquireD (cfg : PoolConfig) (now : Nat) (st : PoolState) (size : Nat) :
    PooledBuffer × PoolState :=
  (acquire cfg now st size).toOption.getD (⟨0, 0, false⟩, st)

/- Helper lemmas about find_suitable_buffer. -/

theorem find_suitable_buffer_first_fit : ∀ (l : List BufferEntry) (s i : Nat),
    find_suitable_buffer l s = some i →
    ∃ e, l.get? i = some e ∧ e.matches_size s = true ∧
      ∀ j e', j < i → l.get? j = some e' → e'.matches_size s = false
  | [], s, i, h => by simp [find_suitable_buffer] at h
  | e :: es, s, i, h => by
    unfold find_suitable_buffer at h
    by_cases hm : e.matches_size s = true
    · rw [if_pos hm] at h
      injection h with h
      subst h
      exact ⟨e, rfl, hm, fun j e' hj _ => absurd hj (by omega)⟩
    · rw [if_neg hm] at h
      rcases Option.map_eq_some'.mp h with ⟨i', hi', hplus⟩
      subst hplus
      obtain ⟨e2, hg, hm2, hfirst⟩ := find_suitable_buffer_first_fit es s i' hi'
      refine ⟨e2, hg, hm2, ?_⟩
      intro j ej hj hje
      cases j with
      | zero =>
        injection hje with hje
        subst hje
        exact Bool.eq_false_iff.mpr hm
      | succ j' => exact hfirst j' ej (by omega) hje

theorem find_suitable_buffer_none : ∀ (l : List BufferEntry) (s : Nat),
    find_suitable_buffer l s = none →
    ∀ e, e ∈ l → e.matches_size s = false
  | [], _, _, _, he => absurd he (by simp)
  | e :: es, s, h, e', he => by
    unfold find_suitable_buffer at h
    by_cases hm : e.matches_size s = true
    · rw [if_pos hm] at h; exact absurd h (by simp)
    · rw [if_neg hm] at h
      rcases List.mem_cons.mp he with rfl | htail
      · exact Bool.eq_false_iff.mpr hm
      · exact find_suitable_buffer_none es s (by
          rcases hfind : find_suitable_buffer es s with _ | i
          · rfl
          · rw [hfind] at h; simp at h) e' htail

/-- A successful find always points inside the idle list, so the
`.remove(index).unwrap()` in MemoryPool::acquire cannot fail. -/
theorem find_suitable_buffer_lt (l : List BufferEntry) (s i : Nat)
    (h : find_suitable_buffer l s = some i) : i < l.length := by
  obtain ⟨e, hg, _, _⟩ := find_suitable_buffer_first_fit l s i h
  rcases List.get?_eq_some.mp hg with ⟨hh, _⟩
  exact hh

/-- MemoryPool::acquire never fails on a nonzero size: the hit branch and
both miss branches (tracked and cap-fallback) return Ok. -/
theorem acquire_ok_of_ne_zero (cfg : PoolConfig) (now : Nat) (st : PoolState)
    (size : Nat) (hs : size ≠ 0) :
    ∃ r, acquire cfg now st size = .ok r := by
  unfold acquire
  rw [if_neg hs]
  simp only []
  split
  next index heq =>
    split
    next hg =>
      exfalso
      have hlt := find_suitable_buffer_lt _ _ _ heq
      rw [List.get?_eq_none] at hg
      omega
    next entry0 hg => exact ⟨_, rfl⟩
  next => exact ⟨_, rfl⟩

/-- Configuration of the cap-fallback scenario: max_memory = 2048 bytes. -/
def poolCfgCap : PoolConfig := ⟨10, 2048, 60000, false, 0⟩

/-- C3: acquire(size) fails if and only if size == 0, and the error is
InvalidBufferSize; with max_memory = 2048, acquiring 2000 twice without
releasing still succeeds, the second buffer being unpooled. -/
theorem acquire_error_iff_size_zero :
    (∀ (cfg : PoolConfig) (now : Nat) (st : PoolState),
      acquire cfg now st 0 = .error (.InvalidBufferSize 0)) ∧
    (∀ (cfg : PoolConfig) (now : Nat) (st : PoolState) (size : Nat),
      size ≠ 0 → ∃ r, acquire cfg now st size = .ok r) ∧
    (∀ (cfg : PoolConfig) (now : Nat) (st : PoolState) (size : Nat)
      (e : MemoryPoolError), acquire cfg now st size = .error e →
      size = 0 ∧ e = .InvalidBufferSize size) ∧
    (acquire poolCfgCap 0 PoolState.initial 2000).isOk = true ∧
    (acquireD poolCfgCap 0 PoolState.initial 2000).1.pooled = true ∧
    (acquire poolCfgCap 0
      (acquireD poolCfgCap 0 PoolState.initial 2000).2 2000).isOk = true ∧
    (acquireD poolCfgCap 0
      (acquireD poolCfgCap 0 PoolState.initial 2000).2 2000).1.pooled
      = false := by
  refine ⟨fun cfg now st => by unfold acquire; rw [if_pos rfl],
    acquire_ok_of_ne_zero, ?_, by decide, by decide, by decide, by decide⟩
  intro cfg now st size e he
  by_cases hs : size = 0
  · subst hs
    unfold acquire at he
    rw [if_pos rfl] at he
    injection he with he
    exact ⟨rfl, he.symm⟩
  · obtain ⟨r, hr⟩ := acquire_ok_of_ne_zero cfg now st size hs
    rw [hr] at he
    exact absurd he (by simp)

theorem acquire_error_iff_size_zero_witness :
    (5 : Nat) ≠ 0 ∧
    ∃ r, acquire PoolConfig.default 0 PoolState.initial 5 = .ok r :=
  ⟨by decide, acquire_error_iff_size_zero.2.1 PoolConfig.default 0
    PoolState.initial 5 (by decide)⟩

/- A strictly sequential acquire/release run used by C1 and C4:
acquire(1024), drop it (the pool now holds one idle 1024-byte entry),
then acquire again. -/

/-- First acquire of the cycle: a fresh tracked 1024-byte buffer. -/
def cycle_s1 : PooledBuffer × PoolState :=
  acquireD PoolConfig.default 0 PoolState.initial 1024

/-- Pool state after dropping the first buffer: no buffer outstanding, one
idle 1024-byte entry. -/
def cycle_s2 : PoolState :=
  PooledBuffer.drop PoolConfig.default 0 cycle_s1.2 cycle_s1.1

/-- Second acquire: a 512-byte request served by reusing the idle
1024-byte entry. -/
def cycle_s3 : PooledBuffer × PoolState :=
  acquireD PoolConfig.default 0 cycle_s2 512

/-- Final state: the 512-byte loan dropped, no buffer outstanding. -/
def cycle_s4 : PoolState :=
  PooledBuffer.drop PoolConfig.default 0 cycle_s3.2 cycle_s3.1

/-- C1 fails on the code: in the strictly sequential cycle
acquire(1024); drop; acquire(512); drop, both acquires succeed, yet with no
buffer outstanding current_memory_usage ends at 512, not 0 — the reuse hit
adds entry.size (1024) while the release subtracts the requested size (512). -/
theorem active_memory_invariant_violated :
    (acquire PoolConfig.default 0 PoolState.initial 1024).isOk = true ∧
    (acquire PoolConfig.default 0 cycle_s2 512).isOk = true ∧
    cycle_s3.1.size = 512 ∧
    cycle_s2.current_memory_usage = 0 ∧
    cycle_s3.2.current_memory_usage = 1024 ∧
    cycle_s4.current_memory_usage = 512 ∧
    cycle_s4.current_memory_usage ≠ 0 := by
  refine ⟨by decide, by decide, by decide, by decide, by decide, by decide,
    by decide⟩

/-- C4: an idle entry is reused iff requested <= entry.size <= requested*2,
first fit in insertion order; concretely, with one idle 1024-byte entry
acquire(512) reuses it and acquire(2048) allocates a new buffer. -/
theorem reuse_iff_size_bucket :
    (∀ (e : BufferEntry) (s : Nat),
      e.matches_size s = true ↔ (s ≤ e.size ∧ e.size ≤ s * 2)) ∧
    (∀ (l : List BufferEntry) (s i : Nat), find_suitable_buffer l s = some i →
      ∃ e, l.get? i = some e ∧ e.matches_size s = true ∧
        ∀ j e', j < i → l.get? j = some e' → e'.matches_size s = false) ∧
    (∀ (l : List BufferEntry) (s : Nat), find_suitable_buffer l s = none →
      ∀ e, e ∈ l → e.matches_size s = false) ∧
    (cycle_s2.buffers = [BufferEntry.new 1024 1024 0] ∧
      (acquireD PoolConfig.default 0 cycle_s2 512).2.memory_reuse_count = 1 ∧
      (acquireD PoolConfig.default 0 cycle_s2 512).2.total_buffers_created = 1 ∧
      (acquireD PoolConfig.default 0 cycle_s2 2048).2.memory_reuse_count = 0 ∧
      (acquireD PoolConfig.default 0 cycle_s2 2048).2.total_buffers_created
        = 2) := by
  refine ⟨?_, find_suitable_buffer_first_fit, find_suitable_buffer_none,
    by decide, by decide, by decide, by decide, by decide⟩
  intro e s
  unfold BufferEntry.matches_size
  rw [Bool.and_eq_true, decide_eq_true_eq, decide_eq_true_eq]

theorem reuse_iff_size_bucket_witness :
    find_suitable_buffer [BufferEntry.new 1024 1024 0] 512 = some 0 ∧
    (∃ e, [BufferEntry.new 1024 1024 0].get? 0 = some e ∧
      e.matches_size 512 = true ∧
      ∀ j e', j < 0 → [BufferEntry.new 1024 1024 0].get? j = some e' →
        e'.matches_size 512 = false) :=
  ⟨by decide, reuse_iff_size_bucket.2.1 [BufferEntry.new 1024 1024 0] 512 0
    (by decide)⟩

/-- C10: clear() empties the idle list and changes no counter; a buffer
checked out before clear() still decrements current_memory_usage by its
tracked size when dropped afterwards. -/
theorem clear_removes_only_idle_buffers :
    (∀ st : PoolState, st.clear.buffers = [] ∧
      st.clear.current_memory_usage = st.current_memory_usage ∧
      st.clear.peak_memory_usage = st.peak_memory_usage ∧
      st.clear.total_buffers_created = st.total_buffers_created ∧
      st.clear.memory_reuse_count = st.memory_reuse_count ∧
      st.clear.buffer_hits = st.buffer_hits ∧
      st.clear.buffer_misses = st.buffer_misses) ∧
    (∀ (cfg : PoolConfig) (now : Nat) (st : PoolState) (b : PooledBuffer),
      b.pooled = true → b.size ≤ st.current_memory_usage →
      st.current_memory_usage < usizeMod →
      (PooledBuffer.drop cfg now st.clear b).current_memory_usage =
        st.current_memory_usage - b.size) := by
  constructor
  · exact fun st => ⟨rfl, rfl, rfl, rfl, rfl, rfl, rfl⟩
  · intro cfg now st b hp hle hlt
    unfold PooledBuffer.drop
    rw [if_pos hp]
    unfold release_internal
    simp only []
    split
    · exact wsub64_of_le _ _ hle hlt
    · exact wsub64_of_le _ _ hle hlt

theorem clear_removes_only_idle_buffers_witness :
    (⟨1024, 1024, true⟩ : PooledBuffer).pooled = true ∧
    (⟨1024, 1024, true⟩ : PooledBuffer).size ≤
      (⟨[], 1, 0, 1024, 1024, 0, 1⟩ : PoolState).current_memory_usage ∧
    (⟨[], 1, 0, 1024, 1024, 0, 1⟩ : PoolState).current_memory_usage
      < usizeMod ∧
    (PooledBuffer.drop PoolConfig.default 0
        (⟨[], 1, 0, 1024, 1024, 0, 1⟩ : PoolState).clear
        ⟨1024, 1024, true⟩).current_memory_usage =
      (⟨[], 1, 0, 1024, 1024, 0, 1⟩ : PoolState).current_memory_usage
        - (⟨1024, 1024, true⟩ : PooledBuffer).size :=
  ⟨by decide, by decide, by decide,
    clear_removes_only_idle_buffers.2 PoolConfig.default 0
      ⟨[], 1, 0, 1024, 1024, 0, 1⟩ ⟨1024, 1024, true⟩ (by decide) (by decide)
      (by decide)⟩

/- ===================================================================
   WebP configuration and adaptive quality
   (src/types.rs WebPConfig, src/pipeline/streaming.rs adjust_quality)
   =================================================================== -/

/-- u8 modulus. -/
def u8Mod : Nat := 256

/-- Wrapping u8 subtraction, as `a - b` compiles in Rust release mode
(debug builds panic on the same underflow). -/
def sub8 (a b : Nat) : Nat := (a + (u8Mod - b % u8Mod)) % u8Mod

/-- Wrapping u8 addition. -/
def add8 (a b : Nat) : Nat := (a + b) % u8Mod

/-- WebPConfig (src/types.rs): u8/usize fields as Nat, bool fields as Bool. -/
structure WebPConfig where
  quality : Nat
  method : Nat
  lossless : Bool
  near_lossless : Nat
  segments : Nat
  sns_strength : Nat
  filter_strength : Nat
  filter_sharpness : Nat
  auto_filter : Bool
  alpha_compression : Bool
  alpha_filtering : Nat
  alpha_quality : Nat
  pass : Nat
  thread_count : Nat
  low_memory : Bool
  exact : Bool
deriving Repr, DecidableEq

/-- WebPConfig::default(): quality 80, method 4. -/
def WebPConfig.default : WebPConfig :=
  ⟨80, 4, false, 100, 4, 50, 60, 0, false, true, 1, 100, 1, 0, false, false⟩

/-- WebPConfig::fast(): quality 75, method 0 — the initial encode
configuration of StreamingConfig::default(). -/
def WebPConfig.fast : WebPConfig :=
  { WebPConfig.default with quality := 75, method := 0, pass := 1 }

/-- StreamingPipeline::adjust_quality. Durations are Nat microseconds, so
the 20 ms / 10 ms thresholds are 20000 / 10000. The u8 arithmetic
`(quality - 5).max(60)` / `(method - 1).max(0)` / `(quality + 2).min(90)` /
`(method + 1).min(4)` is embedded with explicit u8 wrap-around. -/
def adjust_quality (config : WebPConfig) (capture_duration_us : Nat)
    (buffer_depth : Nat) : WebPConfig :=
  if 20000 < capture_duration_us ∨ 30 < buffer_depth then
    { config with
      quality := max (sub8 config.quality 5) 60,
      method := max (sub8 config.method 1) 0 }
  else if capture_duration_us < 10000 ∧ buffer_depth < 10 then
    { config with
      quality := min (add8 config.quality 2) 90,
      method := min (add8 config.method 1) 4 }
  else config

/-- C2 fails on the code at the method floor: at quality=80, 25 ms capture,
backlog 40, quality does become 75 and a method of 4 does drop to 3, but a
method of 0 wraps to 255 instead of holding the claimed floor of 0 (the
written `.max(0)` is a no-op on u8; debug builds panic on `0u8 - 1`). The
pipeline's default configuration WebPConfig::fast() has method = 0, so the
first load spike hits this. -/
theorem adjust_quality_wraps_method_below_floor :
    (adjust_quality { WebPConfig.default with quality := 80 } 25000 40).quality
      = 75 ∧
    (adjust_quality { WebPConfig.default with quality := 80 } 25000 40).method
      = 3 ∧
    (adjust_quality { WebPConfig.default with quality := 80, method := 0 }
        25000 40).quality = 75 ∧
    (adjust_quality { WebPConfig.default with quality := 80, method := 0 }
        25000 40).method = 255 ∧
    (adjust_quality WebPConfig.fast 25000 40).method = 255 := by
  refine ⟨by decide, by decide, by decide, by decide, by decide⟩

/- ===================================================================
   Zero-copy capture optimizer (src/pipeline/zero_copy.rs)
   =================================================================== -/

/-- CaptureError (src/error.rs), omitting the Windows-only variant. -/
inductive CaptureError where
  | DisplayNotFound (index : Nat)
  | DisplayEnumerationFailed (msg : String)
  | CaptureFailed (msg : String)
  | PermissionDenied (msg : String)
  | PlatformError (msg : String)
  | HardwareAccelerationUnavailable (msg : String)
  | InvalidConfiguration (msg : String)
  | MemoryAllocationFailed (size : Nat)
  | CaptureTimeout (timeout_ms : Nat)
  | IoError (msg : String)
  | EncodingError (msg : String)
  | Other (msg : String)
deriving Repr, DecidableEq

/-- PixelFormat (src/types.rs). -/
inductive PixelFormat where
  | RGBA8
  | BGRA8
  | RGB8
  | BGR8
  | Gray8
  | GrayA8
deriving Repr, DecidableEq

/-- RawImage (src/types.rs): owned bytes, dimensions, format, stride. -/
structure RawImage where
  data : List Nat
  width : Nat
  height : Nat
  format : PixelFormat
  stride : Nat
deriving Repr, DecidableEq

/-- ZeroCopyStats (src/pipeline/zero_copy.rs). -/
structure ZeroCopyStats where
  zero_copy_captures : Nat
  traditional_captures : Nat
  memory_saved_bytes : Nat
  time_saved_ms : Nat
  failed_attempts : Nat
deriving Repr, DecidableEq

/-- ZeroCopyStats::default(). -/
def ZeroCopyStats.default : ZeroCopyStats := ⟨0, 0, 0, 0, 0⟩

/-- u32 modulus, for the `width * height * 4` u32 product in the
memory-saved estimate. -/
def u32Mod : Nat := 2 ^ 32

/-- ZeroCopyOptimizer::capture_zero_copy as a state transformer over the
statistics. The platform-specific attempt and the underlying capability
call are passed in as their results (the optimizer treats both as opaque);
`enabled` and `supported` model `self.enabled` and `Self::is_supported()`,
whose conjunction is `is_enabled()`. Returns the capture result paired with
the updated statistics. -/
def capture_zero_copy (enabled supported : Bool)
    (platform_result : Except CaptureError RawImage)
    (capturer_result : Except CaptureError RawImage)
    (elapsed_ms : Nat) (st : ZeroCopyStats) :
    Except CaptureError RawImage × ZeroCopyStats :=
  if !(enabled && supported) then
    (capturer_result,
      { st with traditional_captures := st.traditional_captures + 1 })
  else
    match platform_result with
    | .ok image =>
      (.ok image,
        { st with
          zero_copy_captures := st.zero_copy_captures + 1,
          time_saved_ms := st.time_saved_ms + elapsed_ms,
          memory_saved_bytes :=
            st.memory_saved_bytes + image.width * image.height % u32Mod * 4 % u32Mod })
    | .error _ =>
      (capturer_result,
        { st with
          failed_attempts := st.failed_attempts + 1,
          traditional_captures := st.traditional_captures + 1 })

/-- C5: with zero-copy enabled, a platform-path failure bumps
failed_attempts and traditional_captures by exactly 1, leaves
zero_copy_captures (and the saving estimates) unchanged, and returns
exactly the underlying capturer's result; in every case an error coming out
of capture_zero_copy is the underlying capturer's own error. -/
theorem capture_zero_copy_failure_fallback :
    (∀ (e : CaptureError) (cr : Except CaptureError RawImage) (ms : Nat)
      (st : ZeroCopyStats),
      capture_zero_copy true true (.error e) cr ms st =
        (cr, { st with
          failed_attempts := st.failed_attempts + 1,
          traditional_captures := st.traditional_captures + 1 })) ∧
    (∀ (enabled supported : Bool) (pr cr : Except CaptureError RawImage)
      (ms : Nat) (st : ZeroCopyStats) (e' : CaptureError),
      (capture_zero_copy enabled supported pr cr ms st).1 = .error e' →
      cr = .error e') := by
  constructor
  · intro e cr ms st
    rfl
  · intro enabled supported pr cr ms st e' h
    unfold capture_zero_copy at h
    by_cases hen : (!(enabled && supported)) = true
    · rw [if_pos hen] at h
      exact h
    · rw [if_neg hen] at h
      rcases pr with e0 | img
      · exact h
      · exact absurd h (by simp)

theorem capture_zero_copy_failure_fallback_witness :
    (capture_zero_copy true true
        (.error (.CaptureFailed "DXGI zero-copy not yet implemented"))
        (.error (.DisplayNotFound 0)) 0 ZeroCopyStats.default).1 =
      .error (.DisplayNotFound 0) ∧
    (.error (.DisplayNotFound 0) :
        Except CaptureError RawImage) = .error (.DisplayNotFound 0) :=
  ⟨rfl, capture_zero_copy_failure_fallback.2 true true
    (.error (.CaptureFailed "DXGI zero-copy not yet implemented"))
    (.error (.DisplayNotFound 0)) 0 ZeroCopyStats.default
    (.DisplayNotFound 0) rfl⟩

/- ===================================================================
   Streaming pipeline start/stop (src/pipeline/streaming.rs)
   =================================================================== -/

/-- StreamingConfig (src/pipeline/streaming.rs). -/
structure StreamingConfig where
  target_fps : Nat
  buffer_size : Nat
  capture_threads : Nat
  encoding_threads : Nat
  adaptive_quality : Bool
  allow_frame_drop : Bool
  webp_config : WebPConfig
  use_zero_copy : Bool
  use_gpu : Bool
deriving Repr, DecidableEq

/-- Observable runtime footprint of a StreamingPipeline: the shared atomic
running flag, plus counts of the threads spawned and bounded channels
created over the pipeline's lifetime (each successful start spawns
capture/encoding/output/stats threads and creates the capture-to-encode and
encode-to-output channels). -/
structure PipelineRuntime where
  running : Bool
  spawned_capture_threads : Nat
  spawned_encoding_threads : Nat
  spawned_output_threads : Nat
  spawned_stats_threads : Nat
  created_channels : Nat
deriving Repr, DecidableEq

/-- A freshly constructed pipeline: not running, nothing spawned. -/
def PipelineRuntime.initial : PipelineRuntime := ⟨false, 0, 0, 0, 0, 0⟩

/-- StreamingPipeline::start: on an already-running pipeline, return the
"Pipeline already running" CaptureFailed error and touch nothing; otherwise
set the running flag, create the two bounded channels and spawn the capture,
encoding, output and statistics threads. -/
def StreamingPipeline.start (cfg : StreamingConfig) (st : PipelineRuntime) :
    Except CaptureError Unit × PipelineRuntime :=
  if st.running then
    (.error (.CaptureFailed "Pipeline already running"), st)
  else
    (.ok (),
      { running := true,
        spawned_capture_threads :=
          st.spawned_capture_threads + cfg.capture_threads,
        spawned_encoding_threads :=
          st.spawned_encoding_threads + cfg.encoding_threads,
        spawned_output_threads := st.spawned_output_threads + 1,
        spawned_stats_threads := st.spawned_stats_threads + 1,
        created_channels := st.created_channels + 2 })

/-- StreamingPipeline::stop: clears the running flag, joins nothing. -/
def StreamingPipeline.stop (st : PipelineRuntime) : PipelineRuntime :=
  { st with running := false }

/-- C6: start on an already-running pipeline returns the "already running"
error and has no effect: the returned state is the input state unchanged
(the flag stays true, no thread is spawned, no channel is created, and the
first run's runtime footprint is untouched). -/
theorem start_on_running_pipeline_fails (cfg : StreamingConfig)
    (st : PipelineRuntime) (h : st.running = true) :
    StreamingPipeline.start cfg st =
      (.error (.CaptureFailed "Pipeline already running"), st) := by
  unfold StreamingPipeline.start
  rw [if_pos h]

theorem start_on_running_pipeline_fails_witness :
    (StreamingPipeline.start
        ⟨30, 60, 1, 2, true, true, WebPConfig.fast, true, false⟩
        (StreamingPipeline.start
          ⟨30, 60, 1, 2, true, true, WebPConfig.fast, true, false⟩
          PipelineRuntime.initial).2).2.running = true ∧
    StreamingPipeline.start
        ⟨30, 60, 1, 2, true, true, WebPConfig.fast, true, false⟩
        ⟨true, 1, 2, 1, 1, 2⟩ =
      (.error (.CaptureFailed "Pipeline already running"),
        ⟨true, 1, 2, 1, 1, 2⟩) :=
  ⟨by decide, start_on_running_pipeline_fails
    ⟨30, 60, 1, 2, true, true, WebPConfig.fast, true, false⟩
    ⟨true, 1, 2, 1, 1, 2⟩ (by decide)⟩
